import Mathlib

/-!
Shallow embedding of the review-orchestration pipeline of the
`ai_code_reviewer` repository, and proofs about the claims of its
specification.

Code embedded here (translated statement by statement from the Python
source):
  * `send_email.py` — `send_mail` (the Notifier; the engine imports it as
    `ai_code_reviewer.clients.email_client.send_mail`, whose behaviour is
    the `send_mail` of `send_email.py`);
  * `src/ai_code_reviewer/core/review_engine.py` — `log_review_failure`,
    `save_review_to_database`, `send_review_email`,
    `process_pull_request_review`, `process_commit_review`;
  * `src/ai_code_reviewer/api/routes/manual.py` — `manual_review`,
    `review_diff_file`;
  * `src/ai_code_reviewer/clients/llm_client.py` — `LLMClient.get_code_review`
    with `_get_openai_review` / `_get_ollama_review`;
  * `src/ai_code_reviewer/core/config.py` — `REVIEW_PROMPT_TEMPLATE`.

External collaborators (Bitbucket REST client, LLM HTTP transport, the
database session) are modelled as behaviour oracles: each embedded entry
point takes a record describing the outcome of every external call it may
make.  A Python value `x` of an exception-or-value computation is
`Except PyErr x`; `None`-or-value is `Option`.
-/

set_option autoImplicit false

namespace AICR

/-- A Python exception, identified by its class name and message. -/
structure PyErr where
  name : String
  msg : String
  deriving Repr, DecidableEq

/-- A JSON value, as the loosely-typed nested dictionaries the webhook
payloads arrive as. -/
inductive JValue where
  | jnull
  | jbool (b : Bool)
  | jnum (n : Int)
  | jstr (s : String)
  | jarr (xs : List JValue)
  | jobj (fields : List (String × JValue))

/-- Python truthiness of a JSON value (`if x:`). -/
def JValue.truthy : JValue → Bool
  | .jnull => false
  | .jbool b => b
  | .jnum n => n != 0
  | .jstr s => s != ""
  | .jarr xs => !xs.isEmpty
  | .jobj fs => !fs.isEmpty

/-- Look a key up in a field list (Python `d.get(k)` on a dict, and the
value of `k in d`). -/
def jLookup (fs : List (String × JValue)) (k : String) : Option JValue :=
  match fs.find? (fun p => p.1 == k) with
  | some p => some p.2
  | none => none

/-- Python `v[k]` on an arbitrary value: `KeyError` when the key is absent
from a dict, `TypeError` when `v` is not a dict. -/
def jGetItem (v : JValue) (k : String) : Except PyErr JValue :=
  match v with
  | .jobj fs =>
    match jLookup fs k with
    | some w => .ok w
    | none => .error ⟨"KeyError", k⟩
  | _ => .error ⟨"TypeError", "value is not subscriptable"⟩

/-- Python `v.get(k)` on an arbitrary value: `AttributeError` when `v` is
not a dict. -/
def jGetAttrGet (v : JValue) (k : String) : Except PyErr (Option JValue) :=
  match v with
  | .jobj fs => .ok (jLookup fs k)
  | _ => .error ⟨"AttributeError", "value has no attribute get"⟩

/-- The whitespace characters stripped by Python `str.strip()` (the ASCII
ones; exotic Unicode spaces are not modelled, no string compared in the
pipeline contains them). -/
def pyIsSpace (c : Char) : Bool :=
  c == ' ' || c == '\t' || c == '\n' || c == '\r' || c == '\x0b' || c == '\x0c'

/-- Python `s.strip()`. -/
def pyStrip (s : String) : String :=
  String.mk (((s.data.dropWhile pyIsSpace).reverse.dropWhile pyIsSpace).reverse)

/-- Python `s.startswith(p)`. -/
def pyStartswith (s p : String) : Bool :=
  p.data.isPrefixOf s.data

/-- Python `s.endswith(p)`. -/
def pyEndswith (s p : String) : Bool :=
  p.data.isSuffixOf s.data

/-- Split a character list at every newline, keeping empty pieces (the
`n+1` chunks around `n` newlines). -/
def splitOnNl : List Char → List (List Char)
  | [] => [[]]
  | c :: rest =>
    let r := splitOnNl rest
    if c = '\n' then [] :: r
    else
      match r with
      | [] => [[c]]
      | x :: xs => (c :: x) :: xs

/-- Python `s.splitlines()` for LF-terminated text (the only line ending
produced by the diff sources this pipeline consumes): splitting on `\n`,
with a trailing newline not opening an extra empty line and the empty
string having no lines. -/
def pySplitlines (s : String) : List String :=
  match s.data with
  | [] => []
  | l =>
    let pieces := (splitOnNl l).map (fun cs => String.mk cs)
    if l.getLast? = some '\n' then pieces.dropLast else pieces

/-- Python slice upper bound: `s[:k]` index arithmetic for possibly
negative `k` over a sequence of length `n`. -/
def pySliceBound (n : Nat) (k : Int) : Nat :=
  if k < 0 then ((n : Int) + k).toNat else k.toNat

/-- Python `s[:k]`. -/
def pySliceTo (s : String) (k : Int) : String :=
  String.mk (s.data.take (pySliceBound s.data.length k))

/-- One HTTP post performed by the Notifier's Logic-App trigger: the
comma-joined recipient string it was addressed to.  (Subject and body
formatting are orthogonal to every claim and are not recorded.) -/
structure EmailSend where
  toAddr : String
  deriving Repr, DecidableEq

/-- Configuration and transport behaviour of `send_mail`
(`send_email.py`): the `EMAIL_OPTOUT` flag, the `LOGIC_APP_EMAIL_URL`
setting (`""` = unset, Python-falsy), and whether the HTTP post (or its
`raise_for_status`) raises. -/
structure EmailCfg where
  emailOptout : Bool
  logicAppUrl : String
  postRaises : Option PyErr
  deriving Repr, DecidableEq

/-- The Notifier: `send_mail(to, cc, subject, mailbody)` from
`send_email.py`.  With `EMAIL_OPTOUT` set it logs and returns — a no-op
performing no post and raising nothing.  Otherwise a missing URL raises
`ValueError`; a transport failure re-raises; success performs one post. -/
def send_mail (cfg : EmailCfg) (toAddr : String) : Except PyErr (List EmailSend) :=
  if cfg.emailOptout then .ok []
  else if cfg.logicAppUrl == "" then
    .error ⟨"ValueError", "LOGIC_APP_EMAIL_URL is required for email functionality"⟩
  else
    match cfg.postRaises with
    | some e => .error e
    | none => .ok [⟨toAddr⟩]

/-- Author/reviewer identity data returned by the Diff Source, per the
spec's Diff Source contract (the Bitbucket client itself is an external
collaborator): a user entry optionally carrying an email address and a
display name / login name.  A value of `""` is Python-falsy and is kept
representable because the engine itself tests truthiness. -/
structure UserData where
  emailAddress : Option String
  displayName : Option String
  name : Option String
  deriving Repr, DecidableEq

/-- Result shape of `get_commit_info`: `author` is `none` when the key is
absent or its value Python-falsy (the engine's
`commit_info.get("author")` guard). -/
structure CommitInfo where
  author : Option UserData
  deriving Repr, DecidableEq

/-- Result shape of `get_pull_request_info`: `author` is `none` when
`pr_info.get("author")` or `pr_info["author"].get("user")` fails the
engine's truthiness guard; each reviewer entry is its `user` value
(`none` when `reviewer.get("user")` is falsy). -/
structure PRInfo where
  author : Option UserData
  reviewers : List (Option UserData)
  deriving Repr, DecidableEq

/-- Behaviour of the external calls `send_review_email` may make: the two
info fetches and the Notifier configuration/transport. -/
structure SREBehavior where
  commitInfo : Except PyErr (Option CommitInfo)
  prInfo : Except PyErr (Option PRInfo)
  emailCfg : EmailCfg

/-- Python truthiness of an optional string (`if author_email:`). -/
def strTruthy : Option String → Bool
  | some s => s != ""
  | none => false

/-- Python `a or b` on optional strings (as in
`author_data.get("displayName") or author_data.get("name")`). -/
def pyOrOpt (a b : Option String) : Option String :=
  match a with
  | some s => if s == "" then b else some s
  | none => b

/-- Python truthiness of an optional JSON value (`if commit_id:` on a
`str | None` parameter carrying an extracted payload value). -/
def optTruthy : Option JValue → Bool
  | some j => j.truthy
  | none => false

/-- Recipient accumulation for the pull-request branch of
`send_review_email`: author email first (when truthy), then each
reviewer's email in payload order, skipping falsy `user` entries, falsy
emails and duplicates (`reviewer_email not in recipient_emails`). -/
def collectReviewerEmails (acc : List String) : List (Option UserData) → List String
  | [] => acc
  | none :: rest => collectReviewerEmails acc rest
  | some u :: rest =>
    match u.emailAddress with
    | some e =>
      if e != "" && !(acc.contains e) then collectReviewerEmails (acc ++ [e]) rest
      else collectReviewerEmails acc rest
    | none => collectReviewerEmails acc rest

/-- The tail of `send_review_email`'s `try` body once the recipient list
and author name are resolved: an empty list is an ordinary
`return False, [], None` (no email, not a failure); otherwise `send_mail`
is called with the comma-joined recipients and a transport exception
propagates to the function's own `except` handler. -/
def sreFinish (cfg : EmailCfg) (recips : List String) (authorName : Option String) :
    Except PyErr ((Bool × List String × Option String) × List EmailSend) :=
  if recips.isEmpty then .ok ((false, [], none), [])
  else
    match send_mail cfg (String.intercalate ", " recips) with
    | .error e => .error e
    | .ok sent => .ok ((true, recips, authorName), sent)

/-- `send_review_email` from `review_engine.py` (lines 104–176).  Its whole
body sits inside `try: ... except Exception: return False, [], None`, so
the function never raises: any exception — info fetch, missing URL, or
Notifier transport — yields `(False, [], None)` with no post performed.
Returns the `(email_sent, recipient_emails, author_name)` triple together
with the posts actually performed. -/
def send_review_email (beh : SREBehavior) (commitId prId : Option JValue) :
    (Bool × List String × Option String) × List EmailSend :=
  let attempt : Except PyErr ((Bool × List String × Option String) × List EmailSend) :=
    if optTruthy commitId then
      match beh.commitInfo with
      | .error e => .error e
      | .ok ci =>
        match ci with
        | some info =>
          match info.author with
          | some a =>
            let authorName := pyOrOpt a.displayName a.name
            let recips := if strTruthy a.emailAddress then [a.emailAddress.getD ""] else []
            sreFinish beh.emailCfg recips authorName
          | none => sreFinish beh.emailCfg [] none
        | none => sreFinish beh.emailCfg [] none
    else if optTruthy prId then
      match beh.prInfo with
      | .error e => .error e
      | .ok pi =>
        match pi with
        | some info =>
          match info.author with
          | some a =>
            let authorName := pyOrOpt a.displayName a.name
            let base := if strTruthy a.emailAddress then [a.emailAddress.getD ""] else []
            let recips := collectReviewerEmails base info.reviewers
            sreFinish beh.emailCfg recips authorName
          | none => sreFinish beh.emailCfg [] none
        | none => sreFinish beh.emailCfg [] none
    else sreFinish beh.emailCfg [] none
  match attempt with
  | .ok v => v
  | .error _ => ((false, [], none), [])

/-- One persisted FailureEvent row, with the fields the claims inspect.
`request_payload`, stack trace and provider columns are not recorded:
no claim depends on them. -/
structure FailureEvent where
  eventType : String
  eventKey : Option JValue
  stage : String
  errorName : String
  errorMsg : String
  projectKey : Option JValue
  repoSlug : Option JValue
  commitId : Option JValue
  prId : Option JValue
  authorName : Option String
  authorEmail : Option String

/-- One persisted ReviewOutcome row (`review_records`). -/
structure ReviewRecord where
  reviewType : String
  triggerType : String
  projectKey : JValue
  repoSlug : JValue
  diffContent : String
  reviewFeedback : String
  commitId : Option JValue
  prId : Option JValue
  authorName : Option String
  authorEmail : Option String
  emailRecipients : Option (List String)
  emailSent : Bool

/-- One Diff Source invocation, with the exact arguments passed. -/
inductive FetchCall where
  | prDiff (project repo prId : JValue)
  | commitDiff (project repo commitId : JValue)

/-- The observable effects of one orchestration run: Diff Source calls,
FailureEvent writes, ReviewOutcome writes, and Notifier posts, each in
program order. -/
structure Trace where
  fetches : List FetchCall := []
  failures : List FailureEvent := []
  reviews : List ReviewRecord := []
  emails : List EmailSend := []

instance : Append Trace :=
  ⟨fun a b => ⟨a.fetches ++ b.fetches, a.failures ++ b.failures,
    a.reviews ++ b.reviews, a.emails ++ b.emails⟩⟩

/-- A failure event with no coordinates resolved yet; later fields are
filled by structure update at each failure site. -/
def baseFail (eventType : String) (eventKey : Option JValue) (stage errorName errorMsg : String) :
    FailureEvent :=
  ⟨eventType, eventKey, stage, errorName, errorMsg, none, none, none, none, none, none⟩

/-- `log_review_failure` from `review_engine.py`: writes one FailureEvent
and returns its id; its own `except` swallows a failing write and returns
`None` — it never raises.  `logOk` is the database's behaviour for the
failure-log write. -/
def log_review_failure (logOk : Bool) (ev : FailureEvent) : Trace × Option Nat :=
  if logOk then ({ failures := [ev] }, some 1) else ({}, none)

/-- `save_review_to_database` from `review_engine.py`: writes one
ReviewOutcome and returns its id; its own `except` swallows a failing
write and returns `None` — it never raises.  `saveResult` is the
database's behaviour: `some id` = row written, `none` = the write
raised. -/
def save_review_to_database (saveResult : Option Nat) (rec : ReviewRecord) : Trace × Option Nat :=
  match saveResult with
  | some i => ({ reviews := [rec] }, some i)
  | none => ({}, none)

/-- Behaviour of the external calls one pull-request orchestration unit
may make. -/
structure PRBehavior where
  diffResult : Except PyErr (Option String)
  reviewResult : Except PyErr (Option String)
  sre : SREBehavior
  saveResult : Option Nat
  logOk : Bool

/-- The issues-found tail shared by the PR flow (engine lines 279–343):
resolve recipients and send (`send_review_email` cannot raise, so the
caller's `email_send` and `database_save` `except` blocks are
unreachable; `save_review_to_database` likewise swallows its own
failures), then persist one ReviewOutcome. -/
def prIssuesTail (beh : PRBehavior) (isManual : Bool) (projectKey repoSlug prId : JValue)
    (diff review : String) : Trace :=
  let ((emailSent, recips, authorName), sent) := send_review_email beh.sre none (some prId)
  let authorEmail := recips.head?
  let rec0 : ReviewRecord :=
    { reviewType := if isManual then "manual" else "auto"
      triggerType := "pull_request"
      projectKey := projectKey
      repoSlug := repoSlug
      diffContent := diff
      reviewFeedback := review
      commitId := none
      prId := some prId
      authorName := authorName
      authorEmail := authorEmail
      emailRecipients := if recips.isEmpty then none else some recips
      emailSent := emailSent }
  ({ emails := sent } : Trace) ++ (save_review_to_database beh.saveResult rec0).1

/-- `process_pull_request_review` from `review_engine.py` (lines 179–358),
translated statement by statement.  Validation failures on the three
guarded keys log `payload_validation`; the unguarded `["project"]["key"]`,
`["slug"]` and `["id"]` subscripts raise `KeyError`/`TypeError`, which
only the outermost handler catches as `failure_stage = "unknown"`.  A
null/blank diff and a non-actionable review end the unit silently. -/
def process_pull_request_review (beh : PRBehavior) (payload : List (String × JValue))
    (isManual : Bool) : Trace :=
  let eventType := if isManual then "manual" else "webhook"
  let eventKey : Option JValue :=
    if isManual then some (.jstr "manual_review") else jLookup payload "eventKey"
  let validation : String → Trace := fun msg =>
    (log_review_failure beh.logOk (baseFail eventType eventKey "payload_validation" "ValueError" msg)).1
  let unknownAt : PyErr → Option JValue → Option JValue → Option JValue → Trace :=
    fun e pk rs pid =>
      (log_review_failure beh.logOk
        { baseFail eventType eventKey "unknown" e.name e.msg with
            projectKey := pk, repoSlug := rs, prId := pid }).1
  match jLookup payload "pullRequest" with
  | none => validation "Invalid payload: missing 'pullRequest' key"
  | some pullRequest =>
    match pullRequest with
    | .jobj prFields =>
      match jLookup prFields "toRef" with
      | none => validation "Invalid pull request payload: missing 'toRef' key"
      | some toRef =>
        match jGetAttrGet toRef "repository" with
        | .error e => unknownAt e none none none
        | .ok repoOpt =>
          let repoVal := repoOpt.getD .jnull
          if !repoVal.truthy then
            validation "Invalid pull request payload: missing 'repository' in toRef"
          else
            match jGetItem repoVal "project" with
            | .error e => unknownAt e none none none
            | .ok projectObj =>
              match jGetItem projectObj "key" with
              | .error e => unknownAt e none none none
              | .ok projectKey =>
                match jGetItem repoVal "slug" with
                | .error e => unknownAt e (some projectKey) none none
                | .ok repoSlug =>
                  match jLookup prFields "id" with
                  | none => unknownAt ⟨"KeyError", "id"⟩ (some projectKey) (some repoSlug) none
                  | some prId =>
                    let fetchT : Trace := { fetches := [.prDiff projectKey repoSlug prId] }
                    match beh.diffResult with
                    | .error e =>
                      fetchT ++ (log_review_failure beh.logOk
                        { baseFail eventType eventKey "bitbucket_fetch_diff" e.name e.msg with
                            projectKey := some projectKey, repoSlug := some repoSlug,
                            prId := some prId }).1
                    | .ok diffOpt =>
                      match diffOpt with
                      | none => fetchT
                      | some diff =>
                        if pyStrip diff == "" then fetchT
                        else
                          match beh.reviewResult with
                          | .error e =>
                            fetchT ++ (log_review_failure beh.logOk
                              { baseFail eventType eventKey "llm_review" e.name e.msg with
                                  projectKey := some projectKey, repoSlug := some repoSlug,
                                  prId := some prId }).1
                          | .ok reviewOpt =>
                            let review := reviewOpt.getD ""
                            let reviewTruthy :=
                              match reviewOpt with
                              | some r => r != ""
                              | none => false
                            if reviewTruthy && pyStrip review != "No issues found." then
                              fetchT ++ prIssuesTail beh isManual projectKey repoSlug prId diff review
                            else fetchT
    | _ => unknownAt ⟨"TypeError", "argument of type is not iterable"⟩ none none none

/-- Behaviour of the external calls made while processing one commit of a
push batch. -/
structure CommitStepBehavior where
  diffResult : Except PyErr (Option String)
  reviewResult : Except PyErr (Option String)
  sre : SREBehavior
  saveResult : Option Nat

/-- Behaviour of one commit-batch orchestration run: one step behaviour
per loop iteration, plus the failure-log write behaviour. -/
structure CommitBatchBehavior where
  steps : Nat → CommitStepBehavior
  logOk : Bool

/-- The issues-found tail of one commit iteration (engine lines 442–504):
send (the `email_send`/`database_save` `except` blocks are unreachable,
as in the PR flow) and persist.  Also returns the values the iteration
assigned to the `author_name`/`author_email` locals. -/
def commitIssuesTail (step : CommitStepBehavior) (isManual : Bool)
    (projectKey repoSlug commitId : JValue) (diff review : String) :
    Trace × (Option String × Option String) :=
  let ((emailSent, recips, authorName), sent) := send_review_email step.sre (some commitId) none
  let authorEmail := recips.head?
  let rec0 : ReviewRecord :=
    { reviewType := if isManual then "manual" else "auto"
      triggerType := "commit"
      projectKey := projectKey
      repoSlug := repoSlug
      diffContent := diff
      reviewFeedback := review
      commitId := some commitId
      prId := none
      authorName := authorName
      authorEmail := authorEmail
      emailRecipients := if recips.isEmpty then none else some recips
      emailSent := emailSent }
  (({ emails := sent } : Trace) ++ (save_review_to_database step.saveResult rec0).1,
    (authorName, authorEmail))

/-- One iteration of the commit loop for a truthy commit id (engine lines
402–506): fetch, review, route, send, persist.  The second component is
the iteration's update to the `author_name`/`author_email` locals
(`none` when the iteration did not reach the assignment). -/
def processOneCommit (logOk : Bool) (step : CommitStepBehavior) (eventType : String)
    (eventKey : Option JValue) (projectKey repoSlug : JValue) (isManual : Bool)
    (commitId : JValue) : Trace × Option (Option String × Option String) :=
  let fetchT : Trace := { fetches := [.commitDiff projectKey repoSlug commitId] }
  match step.diffResult with
  | .error e =>
    (fetchT ++ (log_review_failure logOk
      { baseFail eventType eventKey "bitbucket_fetch_diff" e.name e.msg with
          projectKey := some projectKey, repoSlug := some repoSlug,
          commitId := some commitId }).1, none)
  | .ok diffOpt =>
    match diffOpt with
    | none => (fetchT, none)
    | some diff =>
      if pyStrip diff == "" then (fetchT, none)
      else
        match step.reviewResult with
        | .error e =>
          (fetchT ++ (log_review_failure logOk
            { baseFail eventType eventKey "llm_review" e.name e.msg with
                projectKey := some projectKey, repoSlug := some repoSlug,
                commitId := some commitId }).1, none)
        | .ok reviewOpt =>
          let review := reviewOpt.getD ""
          let reviewTruthy :=
            match reviewOpt with
            | some r => r != ""
            | none => false
          if reviewTruthy && pyStrip review != "No issues found." then
            let (t, upd) := commitIssuesTail step isManual projectKey repoSlug commitId diff review
            (fetchT ++ t, some upd)
          else (fetchT, none)

/-- The `for change in changes` loop (engine lines 396–506).  A dict
change without a truthy `toHash` is skipped with only a warning — no
FailureEvent.  A non-dict change makes `change.get("toHash")` raise
`AttributeError`, which only the outermost handler catches: the batch
aborts with one `unknown` FailureEvent carrying the loop locals'
current values (`commit_id`, `author_name`, `author_email` from earlier
iterations). -/
def processChanges (logOk : Bool) (steps : Nat → CommitStepBehavior) (eventType : String)
    (eventKey : Option JValue) (projectKey repoSlug : JValue) (isManual : Bool) :
    List JValue → Nat → Option JValue → Option String → Option String → Trace
  | [], _, _, _, _ => {}
  | change :: rest, i, lastCid, an, ae =>
    match change with
    | .jobj fs =>
      let cid := jLookup fs "toHash"
      if !optTruthy cid then
        processChanges logOk steps eventType eventKey projectKey repoSlug isManual
          rest (i + 1) cid an ae
      else
        let (t, upd) := processOneCommit logOk (steps i) eventType eventKey projectKey repoSlug
          isManual (cid.getD .jnull)
        let st := upd.getD (an, ae)
        t ++ processChanges logOk steps eventType eventKey projectKey repoSlug isManual
          rest (i + 1) cid st.1 st.2
    | _ =>
      (log_review_failure logOk
        { baseFail eventType eventKey "unknown" "AttributeError" "value has no attribute get" with
            projectKey := some projectKey, repoSlug := some repoSlug,
            commitId := lastCid, authorName := an, authorEmail := ae }).1

/-- `process_commit_review` from `review_engine.py` (lines 361–521),
translated statement by statement.  A falsy `repository` logs
`payload_validation`; an empty/absent `changes` list ends silently; the
unguarded `["project"]["key"]` / `["slug"]` subscripts raise to the
outermost handler (`failure_stage = "unknown"`); then the loop runs.
Iterating a truthy non-list `changes` value raises (`TypeError` for
non-iterables at the `for` itself, `AttributeError` on the first
element's `.get` for strings and dicts), again reaching only the
outermost handler. -/
def process_commit_review (beh : CommitBatchBehavior) (payload : List (String × JValue))
    (isManual : Bool) : Trace :=
  let eventType := if isManual then "manual" else "webhook"
  let eventKey : Option JValue :=
    if isManual then some (.jstr "manual_review") else jLookup payload "eventKey"
  let validation : String → Trace := fun msg =>
    (log_review_failure beh.logOk (baseFail eventType eventKey "payload_validation" "ValueError" msg)).1
  let unknownAt : PyErr → Option JValue → Trace := fun e pk =>
    (log_review_failure beh.logOk
      { baseFail eventType eventKey "unknown" e.name e.msg with projectKey := pk }).1
  let repoVal := (jLookup payload "repository").getD .jnull
  if !repoVal.truthy then validation "Invalid payload: missing 'repository' key"
  else
    let changesVal := (jLookup payload "changes").getD (.jarr [])
    if !changesVal.truthy then {}
    else
      match jGetItem repoVal "project" with
      | .error e => unknownAt e none
      | .ok projectObj =>
        match jGetItem projectObj "key" with
        | .error e => unknownAt e none
        | .ok projectKey =>
          match jGetItem repoVal "slug" with
          | .error e => unknownAt e (some projectKey)
          | .ok repoSlug =>
            match changesVal with
            | .jarr xs =>
              processChanges beh.logOk beh.steps eventType eventKey projectKey repoSlug isManual
                xs 0 none none none
            | .jstr _ =>
              (log_review_failure beh.logOk
                { baseFail eventType eventKey "unknown" "AttributeError"
                    "value has no attribute get" with
                    projectKey := some projectKey, repoSlug := some repoSlug }).1
            | .jobj _ =>
              (log_review_failure beh.logOk
                { baseFail eventType eventKey "unknown" "AttributeError"
                    "value has no attribute get" with
                    projectKey := some projectKey, repoSlug := some repoSlug }).1
            | _ =>
              (log_review_failure beh.logOk
                { baseFail eventType eventKey "unknown" "TypeError" "object is not iterable" with
                    projectKey := some projectKey, repoSlug := some repoSlug }).1

/-- `Config.REVIEW_PROMPT_TEMPLATE` up to the `\x7bdiff_content\x7d`
placeholder (from `core/config.py`). -/
def reviewPromptPre : String :=
  "You are an expert code reviewer AI. Review the following code changes provided in the diff format.\n\nFocus on the following:\n- Bug detection (logic errors, null pointers, race conditions).\n- Performance issues (inefficient loops, unnecessary database queries).\n- Security vulnerabilities (SQL injection, cross-site scripting).\n- Adherence to best practices and code readability.\n\nDo not comment on code style (formatting, line length) as that is handled by a linter.\nProvide your feedback in a concise, constructive, and clear manner. If there are no issues, simply respond with \"No issues found.\"\n\nHere is the diff:\n```\n"

/-- `Config.REVIEW_PROMPT_TEMPLATE` after the placeholder. -/
def reviewPromptPost : String :=
  "\n```\n\nPlease provide your review:"

/-- The full `Config.REVIEW_PROMPT_TEMPLATE`; the placeholder text has
length 14, which enters the truncation arithmetic below. -/
def reviewPromptTemplate : String :=
  reviewPromptPre ++ "\x7bdiff_content\x7d" ++ reviewPromptPost

/-- The prompt `LLMClient.get_code_review` builds (llm_client.py lines
85–95): `template.format(diff_content=diff)`, re-formatted from a sliced
diff plus a truncation marker when the first rendering exceeds
`max_chars = 50000`. -/
def mkReviewPrompt (diff : String) : String :=
  let prompt := reviewPromptPre ++ diff ++ reviewPromptPost
  if prompt.length > 50000 then
    let bound : Int := (50000 : Int) - (reviewPromptTemplate.length : Int) + 14
    reviewPromptPre ++ (pySliceTo diff bound ++ "\n\n[... diff truncated ...]") ++ reviewPromptPost
  else prompt

/-- Outcome of the one provider HTTP call an LLM review makes: the post
raises, or responds with a status code and (for the OpenAI shape) the
`choices[0].message.content` value when present — `none` makes the
extraction subscripts raise `KeyError` inside the provider helper's own
`try`. -/
inductive ProviderOutcome where
  | raises (e : PyErr)
  | respond (status : Nat) (content : Option String)

/-- `LLMClient._get_openai_review`: every exception (transport or the
content extraction) is caught and becomes `None`; a non-200 status is
logged and becomes `None`; a 200 response returns the stripped content. -/
def openaiReview (outcome : ProviderOutcome) : Option String :=
  let attempt : Except PyErr (Option String) :=
    match outcome with
    | .raises e => .error e
    | .respond status content =>
      if status == 200 then
        match content with
        | some s => .ok (some (pyStrip s))
        | none => .error ⟨"KeyError", "choices"⟩
      else .ok none
  match attempt with
  | .ok v => v
  | .error _ => none

/-- `LLMClient._get_ollama_review`: as the OpenAI helper, except a 200
response reads `result.get("response", "")`, so a missing field strips to
the empty string rather than raising. -/
def ollamaReview (outcome : ProviderOutcome) : Option String :=
  let attempt : Except PyErr (Option String) :=
    match outcome with
    | .raises e => .error e
    | .respond status content =>
      if status == 200 then .ok (some (pyStrip (content.getD "")))
      else .ok none
  match attempt with
  | .ok v => v
  | .error _ => none

/-- `LLMClient.get_code_review` (llm_client.py lines 82–107): builds the
(possibly truncated) prompt, dispatches on the provider, and returns
`None` for an unknown provider.  Both provider helpers and the outer
`try` catch every exception, so the call always returns normally.  The
second component is the prompt actually sent to a provider (`none` when
no provider call was made). -/
def get_code_review (provider : String) (outcome : ProviderOutcome) (diff : String) :
    Except PyErr (Option String) × Option String :=
  let prompt := mkReviewPrompt diff
  if provider == "openai" then (.ok (openaiReview outcome), some prompt)
  else if provider == "local_ollama" then (.ok (ollamaReview outcome), some prompt)
  else (.ok none, none)

/-- A raised `fastapi.HTTPException`, with status code and detail. -/
structure HTTPException where
  status : Nat
  detail : String
  deriving Repr, DecidableEq

/-- Successful return values of the `manual_review` handler. -/
inductive ManualResult where
  | completed (review : String) (recordId : Option Nat)
  | noDiff
  deriving Repr, DecidableEq

/-- Behaviour of the external calls one `manual_review` request makes. -/
structure ManualBehavior where
  clientInit : Except PyErr Unit
  diffResult : Except PyErr (Option String)
  reviewResult : Except PyErr (Option String)
  sre : SREBehavior
  saveResult : Option Nat
  logOk : Bool

/-- The issues-found tail of `manual_review` (routes/manual.py lines
87–142 / 179–239): send, persist (`record_id` receives
`save_review_to_database`'s possibly-`None` return; the surrounding
`except` blocks are unreachable, as in the engine), and return the
completed response. -/
def manualIssuesTail (beh : ManualBehavior) (projectKey repoSlug : String)
    (commitId prId : Option JValue) (triggerType diff review : String) :
    (Except HTTPException ManualResult) × Trace :=
  let ((emailSent, recips, authorName), sent) := send_review_email beh.sre commitId prId
  let authorEmail := recips.head?
  let rec0 : ReviewRecord :=
    { reviewType := "manual"
      triggerType := triggerType
      projectKey := .jstr projectKey
      repoSlug := .jstr repoSlug
      diffContent := diff
      reviewFeedback := review
      commitId := commitId
      prId := prId
      authorName := authorName
      authorEmail := authorEmail
      emailRecipients := if recips.isEmpty then none else some recips
      emailSent := emailSent }
  let (saveT, recordId) := save_review_to_database beh.saveResult rec0
  (.ok (.completed review recordId), ({ emails := sent } : Trace) ++ saveT)

/-- The no-issues fall-through of `manual_review`: the handler's final
`return {..., "record_id": record_id}` reads the local `record_id`,
which no statement on this path assigned, so Python raises
`UnboundLocalError`; the handler's outermost `except Exception` logs a
`failure_stage = "unknown"` FailureEvent and re-raises as a 500. -/
def manualUnboundTail (beh : ManualBehavior) (projectKey repoSlug : String)
    (commitId prId : Option JValue) : (Except HTTPException ManualResult) × Trace :=
  let msg := "local variable record_id referenced before assignment"
  (.error ⟨500, msg⟩,
    (log_review_failure beh.logOk
      { baseFail "manual" (some (.jstr "manual_review")) "unknown" "UnboundLocalError" msg with
          projectKey := some (.jstr projectKey), repoSlug := some (.jstr repoSlug),
          commitId := commitId, prId := prId }).1)

/-- One branch (PR or commit) of `manual_review` after the diff fetch
succeeded: `if diff:` truthiness, then the LLM call, then the actionable
guard `if review and review.strip() != "No issues found.":`. -/
def manualBranch (beh : ManualBehavior) (projectKey repoSlug : String)
    (commitId prId handlerCid handlerPrId : Option JValue) (triggerType : String)
    (llmStageIdBase : FailureEvent) (diffOpt : Option String) :
    (Except HTTPException ManualResult) × Trace :=
  let diffTruthy :=
    match diffOpt with
    | some s => s != ""
    | none => false
  if diffTruthy then
    let diff := diffOpt.getD ""
    match beh.reviewResult with
    | .error e =>
      (.error ⟨500, "Failed to get LLM review: " ++ e.msg⟩,
        (log_review_failure beh.logOk
          { llmStageIdBase with stage := "llm_review", errorName := e.name, errorMsg := e.msg }).1)
    | .ok reviewOpt =>
      let review := reviewOpt.getD ""
      let reviewTruthy :=
        match reviewOpt with
        | some r => r != ""
        | none => false
      if reviewTruthy && pyStrip review != "No issues found." then
        manualIssuesTail beh projectKey repoSlug commitId prId triggerType diff review
      else manualUnboundTail beh projectKey repoSlug handlerCid handlerPrId
  else (.ok .noDiff, {})

/-- `manual_review` from `routes/manual.py` (lines 16–260), translated
statement by statement.  Note the parameter check and the branch guards
use Python truthiness, so `pr_id = 0` or `commit_id = ""` count as
absent. -/
def manual_review (beh : ManualBehavior) (projectKey repoSlug : String)
    (prId : Option Int) (commitId : Option String) :
    (Except HTTPException ManualResult) × Trace :=
  let prTruthy :=
    match prId with
    | some n => n != 0
    | none => false
  let cidTruthy :=
    match commitId with
    | some s => s != ""
    | none => false
  let prJ : Option JValue := prId.map (fun n => .jnum n)
  let cidJ : Option JValue := commitId.map (fun s => .jstr s)
  let mkBase : String → String → String → FailureEvent := fun stage en em =>
    { baseFail "manual" (some (.jstr "manual_review")) stage en em with
        projectKey := some (.jstr projectKey), repoSlug := some (.jstr repoSlug) }
  if !prTruthy && !cidTruthy then
    (.error ⟨400, "Either pr_id or commit_id must be provided"⟩,
      (log_review_failure beh.logOk
        (mkBase "parameter_validation" "ValueError" "Either pr_id or commit_id must be provided")).1)
  else
    match beh.clientInit with
    | .error e =>
      (.error ⟨500, "Failed to initialize clients"⟩,
        (log_review_failure beh.logOk
          { mkBase "client_initialization" e.name e.msg with prId := prJ, commitId := cidJ }).1)
    | .ok _ =>
      if prTruthy then
        let fetchT : Trace :=
          { fetches := [.prDiff (.jstr projectKey) (.jstr repoSlug) (prJ.getD .jnull)] }
        match beh.diffResult with
        | .error e =>
          (.error ⟨500, "Failed to fetch PR diff: " ++ e.msg⟩,
            fetchT ++ (log_review_failure beh.logOk
              { mkBase "bitbucket_fetch_diff" e.name e.msg with prId := prJ }).1)
        | .ok diffOpt =>
          let (res, t) := manualBranch beh projectKey repoSlug none prJ cidJ prJ "pull_request"
            { mkBase "llm_review" "" "" with prId := prJ } diffOpt
          (res, fetchT ++ t)
      else
        let fetchT : Trace :=
          { fetches := [.commitDiff (.jstr projectKey) (.jstr repoSlug) (cidJ.getD .jnull)] }
        match beh.diffResult with
        | .error e =>
          (.error ⟨500, "Failed to fetch commit diff: " ++ e.msg⟩,
            fetchT ++ (log_review_failure beh.logOk
              { mkBase "bitbucket_fetch_diff" e.name e.msg with commitId := cidJ }).1)
        | .ok diffOpt =>
          let (res, t) := manualBranch beh projectKey repoSlug cidJ none cidJ prJ "commit"
            { mkBase "llm_review" "" "" with commitId := cidJ } diffOpt
          (res, fetchT ++ t)

/-- Behaviour of the external calls one `review_diff_file` request
makes: the LLM call and the two database writes. -/
structure DiffUploadBehavior where
  reviewResult : Except PyErr (Option String)
  saveResult : Option Nat
  logOk : Bool

/-- The JSON body returned by a successful `review_diff_file` call (the
fields the claims inspect; timing, provider and echo-back metadata are
not recorded). -/
structure DiffUploadResponse where
  status : String
  reviewMarkdown : String
  recordId : Option Nat
  linesTotal : Nat
  linesAdded : Nat
  linesRemoved : Nat
  deriving Repr, DecidableEq

/-- Python `line.startswith("+") and not line.startswith("+++")` for the
added-lines count of `review_diff_file`. -/
def isAddedLine (l : String) : Bool :=
  pyStartswith l "+" && !(pyStartswith l "+++")

/-- Python `line.startswith("-") and not line.startswith("---")` for the
removed-lines count. -/
def isRemovedLine (l : String) : Bool :=
  pyStartswith l "-" && !(pyStartswith l "---")

/-- `review_diff_file` from `routes/manual.py` (lines 263–518), translated
statement by statement.  The uploaded file is modelled as its decoded
text (only valid UTF-8 uploads are represented; the size check uses the
UTF-8 byte count, as `len(content)` does on the raw bytes).  Note the
persistence step stores `diff_with_metadata` while the line statistics
are computed from the raw `diff_text`, and that
`save_review_to_database` swallows its own failure, so a failed write
reaches the response as a `None` record id with status still
`"success"`. -/
def review_diff_file (beh : DiffUploadBehavior) (filename fileText : String)
    (projectKey repoSlug authorName : String) (authorEmail description : Option String) :
    (Except HTTPException DiffUploadResponse) × Trace :=
  let mkBase : String → String → String → FailureEvent := fun stage en em =>
    { baseFail "manual" (some (.jstr "diff_upload")) stage en em with
        projectKey := some (.jstr projectKey), repoSlug := some (.jstr repoSlug),
        authorName := some authorName, authorEmail := authorEmail }
  if !(pyEndswith filename ".diff" || pyEndswith filename ".patch") then
    let msg := "Invalid file type. Expected .diff or .patch file, got: " ++ filename
    (.error ⟨400, msg⟩,
      (log_review_failure beh.logOk (mkBase "file_validation" "ValueError" msg)).1)
  else if fileText.utf8ByteSize > 10 * 1024 * 1024 then
    let msg := "File too large"
    (.error ⟨400, msg⟩,
      (log_review_failure beh.logOk (mkBase "file_validation" "ValueError" msg)).1)
  else if pyStrip fileText == "" then
    let msg := "Diff file is empty"
    (.error ⟨400, msg⟩,
      (log_review_failure beh.logOk (mkBase "diff_validation" "ValueError" msg)).1)
  else
    let descTruthy :=
      match description with
      | some d => d != ""
      | none => false
    let diffWithMetadata :=
      if descTruthy then "# Description: " ++ description.getD "" ++ "\n\n" ++ fileText
      else fileText
    match beh.reviewResult with
    | .error e =>
      (.error ⟨500, "Failed to get LLM review: " ++ e.msg⟩,
        (log_review_failure beh.logOk (mkBase "llm_review" e.name e.msg)).1)
    | .ok reviewOpt =>
      if !(strTruthy reviewOpt) then
        (.error ⟨500, "Failed to get review from LLM"⟩,
          (log_review_failure beh.logOk
            (mkBase "llm_review" "ValueError" "LLM returned empty review")).1)
      else
        let review := reviewOpt.getD ""
        let rec0 : ReviewRecord :=
          { reviewType := "manual"
            triggerType := "diff_upload"
            projectKey := .jstr projectKey
            repoSlug := .jstr repoSlug
            diffContent := diffWithMetadata
            reviewFeedback := review
            commitId := none
            prId := none
            authorName := some authorName
            authorEmail := authorEmail
            emailRecipients := none
            emailSent := false }
        let (saveT, recordId) := save_review_to_database beh.saveResult rec0
        let lines := pySplitlines fileText
        (.ok { status := "success"
               reviewMarkdown := review
               recordId := recordId
               linesTotal := lines.length
               linesAdded := (lines.filter isAddedLine).length
               linesRemoved := (lines.filter isRemovedLine).length },
          saveT)

/-- A Notifier configuration with email enabled and a working transport. -/
def okCfg : EmailCfg :=
  { emailOptout := false, logicAppUrl := "http://logic-app", postRaises := none }

/-- A Notifier configuration with outbound email administratively
disabled (`EMAIL_OPTOUT`). -/
def optoutCfg : EmailCfg :=
  { emailOptout := true, logicAppUrl := "", postRaises := none }

/-- Diff Source info behaviour with a single resolvable author email on
both the commit and the PR side, and no reviewers. -/
def mkAuthorSRE (email : String) (cfg : EmailCfg) : SREBehavior :=
  { commitInfo := .ok (some
      { author := some { emailAddress := some email, displayName := none, name := none } })
    prInfo := .ok (some
      { author := some { emailAddress := some email, displayName := none, name := none }
        reviewers := [] })
    emailCfg := cfg }

/-- The canonical shape of a valid pull-request webhook payload, with the
source (`fromRef`) side left arbitrary. -/
def mkPRPayload (fromRef : JValue) (project slug : String) (prid : Int) :
    List (String × JValue) :=
  [("eventKey", .jstr "pr:opened"),
   ("pullRequest", .jobj
     [("id", .jnum prid),
      ("fromRef", fromRef),
      ("toRef", .jobj [("repository", .jobj
        [("project", .jobj [("key", .jstr project)]), ("slug", .jstr slug)])])])]

/-- One entry of a push payload's `changes` array carrying a commit
hash. -/
def mkChange (h : String) : JValue :=
  .jobj [("toHash", .jstr h)]

/-- The canonical shape of a valid push (commit-batch) webhook payload. -/
def mkCommitPayload (project slug : String) (changes : List JValue) :
    List (String × JValue) :=
  [("eventKey", .jstr "repo:refs_changed"),
   ("repository", .jobj
     [("project", .jobj [("key", .jstr project)]), ("slug", .jstr slug)]),
   ("changes", .jarr changes)]

/-- The concatenation of the per-commit traces of a batch, each commit
processed from its own step behaviour alone. -/
def segTraces (logOk : Bool) (steps : Nat → CommitStepBehavior) (eventType : String)
    (eventKey : Option JValue) (projectKey repoSlug : JValue) (isManual : Bool) :
    List String → Nat → Trace
  | [], _ => {}
  | h :: rest, i =>
    (processOneCommit logOk (steps i) eventType eventKey projectKey repoSlug isManual
      (.jstr h)).1 ++
    segTraces logOk steps eventType eventKey projectKey repoSlug isManual rest (i + 1)

/-- A webhook pull-request run over the canonical valid payload, with a
successfully fetched diff, an LLM result, and a succeeding failure
log. -/
def prRun (sre : SREBehavior) (sv : Option Nat) (diff : String) (rv : Option String)
    (fromRef : JValue) (project slug : String) (prid : Int) : Trace :=
  process_pull_request_review
    { diffResult := .ok (some diff), reviewResult := .ok rv, sre := sre
      saveResult := sv, logOk := true }
    (mkPRPayload fromRef project slug prid) false

/-- A Notifier configuration whose transport post raises. -/
def failCfg : EmailCfg :=
  { emailOptout := false, logicAppUrl := "http://logic-app"
    postRaises := some ⟨"HTTPError", "transport failure"⟩ }

theorem Trace.fetches_append (a b : Trace) : (a ++ b).fetches = a.fetches ++ b.fetches := rfl

theorem Trace.failures_append (a b : Trace) : (a ++ b).failures = a.failures ++ b.failures := rfl

theorem Trace.reviews_append (a b : Trace) : (a ++ b).reviews = a.reviews ++ b.reviews := rfl

theorem Trace.emails_append (a b : Trace) : (a ++ b).emails = a.emails ++ b.emails := rfl

/-- C1, counterexample.  The claim says any review text other than the
literal — including the empty string — routes to `issues_found`, so with
a resolvable recipient exactly one notification and one ReviewOutcome
write occur.  On the code, an empty review is Python-falsy and fails the
`if review and review.strip() != "No issues found.":` guard, so this
concrete run (valid PR payload, resolvable author email, working
Notifier and database, review text `""`) sends nothing and writes
nothing. -/
theorem C1_counterexample :
    (prRun (mkAuthorSRE "a@x.com" okCfg) (some 1) "+print(x)" (some "")
      (.jobj []) "TEST" "demo" 7).emails = [] ∧
    (prRun (mkAuthorSRE "a@x.com" okCfg) (some 1) "+print(x)" (some "")
      (.jobj []) "TEST" "demo" 7).reviews = [] :=
  ⟨rfl, rfl⟩

/-- C1, amended.  The pipeline routes on
`review and review.strip() != "No issues found."`: a truthy (non-null,
non-empty) review whose trim differs from the literal routes to
`issues_found` — with a resolvable recipient, working Notifier and
database, exactly one notification call and one ReviewOutcome write
occur and no FailureEvent — while a review equal to the literal after
trimming, and equally a null or empty review, routes to `no_issues`
with no notification and no write. -/
theorem C1_routing_amended (project slug : String) (prid : Int) (fromRef : JValue)
    (diff email r : String) (rid : Nat)
    (hdiff : pyStrip diff ≠ "") (hemail : email ≠ "") (hprid : prid ≠ 0) :
    ((r ≠ "" ∧ pyStrip r ≠ "No issues found.") →
      (prRun (mkAuthorSRE email okCfg) (some rid) diff (some r)
        fromRef project slug prid).emails.length = 1 ∧
      (prRun (mkAuthorSRE email okCfg) (some rid) diff (some r)
        fromRef project slug prid).reviews.length = 1 ∧
      (prRun (mkAuthorSRE email okCfg) (some rid) diff (some r)
        fromRef project slug prid).failures = []) ∧
    ((r = "" ∨ pyStrip r = "No issues found.") →
      (prRun (mkAuthorSRE email okCfg) (some rid) diff (some r)
        fromRef project slug prid).emails = [] ∧
      (prRun (mkAuthorSRE email okCfg) (some rid) diff (some r)
        fromRef project slug prid).reviews = [] ∧
      (prRun (mkAuthorSRE email okCfg) (some rid) diff (some r)
        fromRef project slug prid).failures = []) ∧
    ((prRun (mkAuthorSRE email okCfg) (some rid) diff none
        fromRef project slug prid).emails = [] ∧
      (prRun (mkAuthorSRE email okCfg) (some rid) diff none
        fromRef project slug prid).reviews = [] ∧
      (prRun (mkAuthorSRE email okCfg) (some rid) diff none
        fromRef project slug prid).failures = []) := by
  refine ⟨fun h => ?_, fun h => ?_, ?_⟩
  · obtain ⟨hr, hlit⟩ := h
    simp [prRun, process_pull_request_review, mkPRPayload, mkAuthorSRE, okCfg, jLookup,
      jGetItem, jGetAttrGet, JValue.truthy, prIssuesTail, send_review_email, sreFinish,
      send_mail, optTruthy, strTruthy, pyOrOpt, collectReviewerEmails,
      save_review_to_database, log_review_failure, baseFail, Trace.fetches_append,
      Trace.failures_append, Trace.reviews_append, Trace.emails_append,
      hdiff, hemail, hprid, hr, hlit]
  · rcases h with h | h
    · subst h
      simp [prRun, process_pull_request_review, mkPRPayload, mkAuthorSRE, okCfg, jLookup,
        jGetItem, jGetAttrGet, JValue.truthy, Trace.fetches_append, Trace.failures_append,
        Trace.reviews_append, Trace.emails_append, hdiff, hprid]
    · simp [prRun, process_pull_request_review, mkPRPayload, mkAuthorSRE, okCfg, jLookup,
        jGetItem, jGetAttrGet, JValue.truthy, Trace.fetches_append, Trace.failures_append,
        Trace.reviews_append, Trace.emails_append, hdiff, hprid, h]
  · simp [prRun, process_pull_request_review, mkPRPayload, mkAuthorSRE, okCfg, jLookup,
      jGetItem, jGetAttrGet, JValue.truthy, Trace.fetches_append, Trace.failures_append,
      Trace.reviews_append, Trace.emails_append, hdiff, hprid]

/-- C1, witness: the amended routing evaluated at a concrete actionable
review and a concrete empty review. -/
theorem C1_routing_amended_witness :
    (prRun (mkAuthorSRE "a@x.com" okCfg) (some 1) "+x" (some "Fix.")
      (.jobj []) "TEST" "demo" 7).emails.length = 1 ∧
    (prRun (mkAuthorSRE "a@x.com" okCfg) (some 1) "+x" (some "")
      (.jobj []) "TEST" "demo" 7).emails = [] :=
  ⟨((C1_routing_amended "TEST" "demo" 7 (.jobj []) "+x" "a@x.com" "Fix." 1
      (by decide) (by decide) (by decide)).1 ⟨by decide, by decide⟩).1,
   ((C1_routing_amended "TEST" "demo" 7 (.jobj []) "+x" "a@x.com" "" 1
      (by decide) (by decide) (by decide)).2.1 (Or.inl rfl)).1⟩

/-- C2, counterexample.  The claim says a raising Notifier call leads to
a FailureEvent with `failure_stage = "email_send"`.  On the code,
`send_review_email` catches every exception itself and returns
`(False, [], None)`, so the engine's `email_send` handler never fires:
this concrete run (actionable review, resolvable recipient, transport
raising) records no FailureEvent at all, while still persisting the
review with `email_sent = false`. -/
theorem C2_counterexample :
    (prRun (mkAuthorSRE "a@x.com" failCfg) (some 1) "+print(x)" (some "Fix.")
      (.jobj []) "TEST" "demo" 7).failures = [] ∧
    (prRun (mkAuthorSRE "a@x.com" failCfg) (some 1) "+print(x)" (some "Fix.")
      (.jobj []) "TEST" "demo" 7).emails = [] ∧
    (prRun (mkAuthorSRE "a@x.com" failCfg) (some 1) "+print(x)" (some "Fix.")
      (.jobj []) "TEST" "demo" 7).reviews.map (fun rec => rec.emailSent) = [false] :=
  ⟨rfl, rfl, rfl⟩

/-- C2, amended.  When the Notifier raises (transport failure, or the
missing-URL `ValueError`), the unit is not aborted and continues to the
persistence step with `email_sent = false` and an empty recipient list
(persisted as a null recipient column), but no FailureEvent is recorded:
the exception is swallowed inside `send_review_email`, making the
caller's `email_send` failure classification unreachable. -/
theorem C2_notifier_raise_amended (project slug : String) (prid : Int) (fromRef : JValue)
    (diff email r url : String) (e : PyErr) (rid : Nat)
    (hdiff : pyStrip diff ≠ "") (hemail : email ≠ "") (hprid : prid ≠ 0)
    (hr : r ≠ "") (hlit : pyStrip r ≠ "No issues found.") :
    (prRun (mkAuthorSRE email ⟨false, url, some e⟩) (some rid) diff (some r)
      fromRef project slug prid).failures = [] ∧
    (prRun (mkAuthorSRE email ⟨false, url, some e⟩) (some rid) diff (some r)
      fromRef project slug prid).emails = [] ∧
    (prRun (mkAuthorSRE email ⟨false, url, some e⟩) (some rid) diff (some r)
      fromRef project slug prid).reviews.map
        (fun rec => (rec.emailSent, rec.emailRecipients)) = [(false, none)] := by
  rcases eq_or_ne url "" with hurl | hurl <;>
    simp [prRun, process_pull_request_review, mkPRPayload, mkAuthorSRE, jLookup,
      jGetItem, jGetAttrGet, JValue.truthy, prIssuesTail, send_review_email, sreFinish,
      send_mail, optTruthy, strTruthy, pyOrOpt, collectReviewerEmails,
      save_review_to_database, log_review_failure, baseFail, Trace.fetches_append,
      Trace.failures_append, Trace.reviews_append, Trace.emails_append,
      hdiff, hemail, hprid, hr, hlit, hurl]

/-- C2, witness: the amended behaviour evaluated at a concrete run with
a raising transport. -/
theorem C2_notifier_raise_amended_witness :
    (prRun (mkAuthorSRE "a@x.com" ⟨false, "http://u", some ⟨"HTTPError", "boom"⟩⟩)
      (some 1) "+x" (some "Fix.") (.jobj []) "TEST" "demo" 7).failures = [] :=
  (C2_notifier_raise_amended "TEST" "demo" 7 (.jobj []) "+x" "a@x.com" "Fix."
    "http://u" ⟨"HTTPError", "boom"⟩ 1
    (by decide) (by decide) (by decide) (by decide) (by decide)).1

/-- C3, counterexample.  The claim says that under `EMAIL_OPTOUT` the
persisted ReviewOutcome records `email_sent = false`.  On the code,
`send_mail` returns silently under opt-out, so `send_review_email`
reports success and this concrete run (actionable review, resolvable
recipient, opt-out enabled) persists `email_sent = true` — even though
the no-op part of the claim holds: no post, no exception. -/
theorem C3_counterexample :
    send_mail optoutCfg "a@x.com" = .ok [] ∧
    (prRun (mkAuthorSRE "a@x.com" optoutCfg) (some 1) "+print(x)" (some "Fix.")
      (.jobj []) "TEST" "demo" 7).reviews.map (fun rec => rec.emailSent) = [true] :=
  ⟨rfl, rfl⟩

/-- C3, amended.  Under `EMAIL_OPTOUT` the send is a no-op that raises
no exception and posts nothing, for any recipient string; but the
orchestrator cannot observe the opt-out, so when at least one recipient
resolves the persisted ReviewOutcome records `email_sent = true` with
the resolved recipient list (`email_sent = false` occurs only when no
recipient resolves). -/
theorem C3_optout_amended (project slug : String) (prid : Int) (fromRef : JValue)
    (diff email r : String) (rid : Nat)
    (hdiff : pyStrip diff ≠ "") (hemail : email ≠ "") (hprid : prid ≠ 0)
    (hr : r ≠ "") (hlit : pyStrip r ≠ "No issues found.") :
    (∀ s : String, send_mail optoutCfg s = .ok []) ∧
    (prRun (mkAuthorSRE email optoutCfg) (some rid) diff (some r)
      fromRef project slug prid).emails = [] ∧
    (prRun (mkAuthorSRE email optoutCfg) (some rid) diff (some r)
      fromRef project slug prid).reviews.map
        (fun rec => (rec.emailSent, rec.emailRecipients)) = [(true, some [email])] ∧
    (prRun (mkAuthorSRE email optoutCfg) (some rid) diff (some r)
      fromRef project slug prid).failures = [] := by
  refine ⟨fun s => rfl, ?_, ?_, ?_⟩ <;>
    simp [prRun, process_pull_request_review, mkPRPayload, mkAuthorSRE, optoutCfg, jLookup,
      jGetItem, jGetAttrGet, JValue.truthy, prIssuesTail, send_review_email, sreFinish,
      send_mail, optTruthy, strTruthy, pyOrOpt, collectReviewerEmails,
      save_review_to_database, log_review_failure, baseFail, Trace.fetches_append,
      Trace.failures_append, Trace.reviews_append, Trace.emails_append,
      hdiff, hemail, hprid, hr, hlit]

/-- C3, witness: the amended opt-out behaviour evaluated at a concrete
run. -/
theorem C3_optout_amended_witness :
    (prRun (mkAuthorSRE "a@x.com" optoutCfg) (some 1) "+x" (some "Fix.")
      (.jobj []) "TEST" "demo" 7).reviews.map
      (fun rec => (rec.emailSent, rec.emailRecipients)) = [(true, some ["a@x.com"])] :=
  (C3_optout_amended "TEST" "demo" 7 (.jobj []) "+x" "a@x.com" "Fix." 1
    (by decide) (by decide) (by decide) (by decide) (by decide)).2.2.1

set_option maxRecDepth 20000 in
theorem reviewPromptPre_length : reviewPromptPre.length = 620 := by decide

set_option maxRecDepth 20000 in
theorem reviewPromptPost_length : reviewPromptPost.length = 33 := by decide

set_option maxRecDepth 20000 in
theorem reviewPromptTemplate_length : reviewPromptTemplate.length = 667 := by decide

theorem pySliceTo_length_le (s : String) (k : Int) (hk : 0 ≤ k) :
    (pySliceTo s k).length ≤ k.toNat := by
  unfold pySliceTo pySliceBound
  rw [if_neg (Int.not_lt.mpr hk), String.length_mk, List.length_take]
  omega

theorem mkReviewPrompt_length_le (diff : String) : (mkReviewPrompt diff).length ≤ 50026 := by
  unfold mkReviewPrompt
  by_cases h : (reviewPromptPre ++ diff ++ reviewPromptPost).length > 50000
  · rw [if_pos h]
    have hk : (50000 : Int) - (reviewPromptTemplate.length : Int) + 14 = 49347 := by
      rw [reviewPromptTemplate_length]; decide
    have hb := pySliceTo_length_le diff ((50000 : Int) - (reviewPromptTemplate.length : Int) + 14)
      (by rw [hk]; decide)
    rw [hk] at hb
    have hb2 : (pySliceTo diff 49347).length ≤ 49347 := le_trans hb (by decide)
    rw [String.length_append, String.length_append, String.length_append,
      reviewPromptPre_length, reviewPromptPost_length]
    have hm : ("\n\n[... diff truncated ...]" : String).length = 26 := by decide
    rw [hk, hm]
    omega
  · rw [if_neg h]
    omega

theorem get_code_review_result (p : String) (o : ProviderOutcome) (d : String) :
    (get_code_review p o d).1 =
      .ok (if p == "openai" then openaiReview o
        else if p == "local_ollama" then ollamaReview o else none) := by
  unfold get_code_review
  by_cases h1 : p == "openai" <;> by_cases h2 : p == "local_ollama" <;> simp [h1, h2]

/-- C4.  `get_code_review` never lets an exception escape (both provider
helpers and its own `try` catch everything, so in particular any raise
could only be a transport/provider failure); for the OpenAI provider it
returns null whenever the provider call yields nothing usable (a raise,
a non-200 status, or a 200 body without the expected content); and any
prompt it sends to a provider is bounded — oversized diffs are truncated
so the prompt never exceeds 50026 characters (`max_chars = 50000` plus
the truncation marker). -/
theorem C4_llm_client_contract (provider : String) (outcome : ProviderOutcome) (diff : String) :
    (∃ v, (get_code_review provider outcome diff).1 = .ok v) ∧
    ((∀ s, outcome ≠ .respond 200 (some s)) →
      (get_code_review "openai" outcome diff).1 = .ok none) ∧
    (∀ prompt, (get_code_review provider outcome diff).2 = some prompt →
      prompt.length ≤ 50026) := by
  refine ⟨⟨_, get_code_review_result provider outcome diff⟩, fun h => ?_, fun prompt hp => ?_⟩
  · rw [get_code_review_result]
    rcases outcome with e | ⟨status, content⟩
    · simp [openaiReview]
    · rcases content with _ | s
      · by_cases hs : status == 200 <;> simp [openaiReview, hs]
      · by_cases hs : status = 200
        · subst hs
          exact absurd rfl (h s)
        · simp [openaiReview, hs]
  · unfold get_code_review at hp
    by_cases h1 : provider == "openai" <;> by_cases h2 : provider == "local_ollama" <;>
      simp [h1, h2] at hp <;> rw [← hp] <;> exact mkReviewPrompt_length_le diff

/-- C4, witness: a raising transport at a concrete diff returns `ok none`
(no exception escapes), and the concrete prompt sent for that diff is
within the bound. -/
theorem C4_llm_client_contract_witness :
    (get_code_review "openai" (.raises ⟨"ConnectError", "boom"⟩) "+x").1 = .ok none ∧
    ∃ prompt, (get_code_review "openai" (.raises ⟨"ConnectError", "boom"⟩) "+x").2 = some prompt ∧
      prompt.length ≤ 50026 :=
  ⟨(C4_llm_client_contract "openai" (.raises ⟨"ConnectError", "boom"⟩) "+x").2.1
      (fun _ h => ProviderOutcome.noConfusion h),
   ⟨mkReviewPrompt "+x", rfl,
    (C4_llm_client_contract "openai" (.raises ⟨"ConnectError", "boom"⟩) "+x").2.2
      (mkReviewPrompt "+x") rfl⟩⟩

/-- C5, counterexample.  The claim says a payload missing the project key
is classified `failure_stage = "payload_validation"`.  On the code,
`repository["project"]["key"]` is an unguarded subscript: this concrete
PR payload whose target repository lacks `project` raises `KeyError`,
caught only by the outermost handler, so the recorded FailureEvent has
`failure_stage = "unknown"`. -/
theorem C5_counterexample :
    (process_pull_request_review
      { diffResult := .ok (some "+x"), reviewResult := .ok (some "Fix."),
        sre := mkAuthorSRE "a@x.com" okCfg, saveResult := some 1, logOk := true }
      [("eventKey", .jstr "pr:opened"),
       ("pullRequest", .jobj
         [("id", .jnum 7),
          ("toRef", .jobj [("repository", .jobj [("slug", .jstr "demo")])])])]
      false).failures.map (fun f => (f.stage, f.errorName)) = [("unknown", "KeyError")] :=
  rfl

/-- C5, amended.  Only the guarded keys are classified
`payload_validation`: for pull requests a missing `pullRequest`, a
missing `toRef`, or a missing/falsy `repository` in `toRef`; for pushes
a missing/falsy `repository`.  A missing project key, repository slug or
PR id instead raises `KeyError` to the outermost handler and is recorded
with `failure_stage = "unknown"`.  A push commit entry without a hash is
skipped with no FailureEvent at all, and sibling commits continue (here:
the sibling's diff fetch still happens). -/
theorem C5_validation_stages_amended (ek pid : JValue)
    (d rv : Except PyErr (Option String)) (sre : SREBehavior) (sv : Option Nat)
    (cstep : Nat → CommitStepBehavior) (project slug h : String)
    (hh : h ≠ "") (hsib : (cstep 1).diffResult = .ok none) :
    (process_pull_request_review ⟨d, rv, sre, sv, true⟩
      [("eventKey", ek)] false).failures.map (fun f => f.stage) = ["payload_validation"] ∧
    (process_pull_request_review ⟨d, rv, sre, sv, true⟩
      [("pullRequest", .jobj [("id", pid)])] false).failures.map (fun f => f.stage) =
      ["payload_validation"] ∧
    (process_pull_request_review ⟨d, rv, sre, sv, true⟩
      [("pullRequest", .jobj [("id", pid), ("toRef", .jobj [])])] false).failures.map
        (fun f => f.stage) = ["payload_validation"] ∧
    (process_pull_request_review ⟨d, rv, sre, sv, true⟩
      [("pullRequest", .jobj
        [("id", pid),
         ("toRef", .jobj [("repository", .jobj [("slug", .jstr slug)])])])]
      false).failures.map (fun f => (f.stage, f.errorName)) = [("unknown", "KeyError")] ∧
    (process_pull_request_review ⟨d, rv, sre, sv, true⟩
      [("pullRequest", .jobj
        [("toRef", .jobj [("repository", .jobj
          [("project", .jobj [("key", .jstr project)]), ("slug", .jstr slug)])])])]
      false).failures.map (fun f => (f.stage, f.errorName)) = [("unknown", "KeyError")] ∧
    (process_commit_review ⟨cstep, true⟩ [("eventKey", ek)] false).failures.map
      (fun f => f.stage) = ["payload_validation"] ∧
    (process_commit_review ⟨cstep, true⟩
      [("eventKey", ek), ("repository", .jobj [("slug", .jstr slug)]),
       ("changes", .jarr [mkChange h])] false).failures.map
        (fun f => (f.stage, f.errorName)) = [("unknown", "KeyError")] ∧
    ((process_commit_review ⟨cstep, true⟩
      (mkCommitPayload project slug [.jobj [], mkChange h]) false).failures = [] ∧
     (process_commit_review ⟨cstep, true⟩
      (mkCommitPayload project slug [.jobj [], mkChange h]) false).fetches =
        [.commitDiff (.jstr project) (.jstr slug) (.jstr h)]) := by
  refine ⟨?_, ?_, ?_, ?_, ?_, ?_, ?_, ?_, ?_⟩ <;>
    simp [process_pull_request_review, process_commit_review, processChanges,
      processOneCommit, mkCommitPayload, mkChange, jLookup, jGetItem, jGetAttrGet,
      JValue.truthy, optTruthy, log_review_failure, baseFail, Trace.fetches_append,
      Trace.failures_append, Trace.reviews_append, Trace.emails_append, hh, hsib]

/-- C5, witness: the amended classification evaluated at concrete
payloads and behaviours. -/
theorem C5_validation_stages_amended_witness :
    (process_pull_request_review
      ⟨.ok none, .ok none, mkAuthorSRE "a@x.com" okCfg, some 1, true⟩
      [("eventKey", .jstr "pr:opened")] false).failures.map (fun f => f.stage) =
      ["payload_validation"] ∧
    (process_commit_review
      ⟨fun _ => ⟨.ok none, .ok none, mkAuthorSRE "a@x.com" okCfg, some 1⟩, true⟩
      (mkCommitPayload "TEST" "demo" [.jobj [], mkChange "abc123"]) false).failures = [] :=
  ⟨(C5_validation_stages_amended (.jstr "pr:opened") (.jnum 7) (.ok none) (.ok none)
      (mkAuthorSRE "a@x.com" okCfg) (some 1)
      (fun _ => ⟨.ok none, .ok none, mkAuthorSRE "a@x.com" okCfg, some 1⟩)
      "TEST" "demo" "abc123" (by decide) rfl).1,
   (C5_validation_stages_amended (.jstr "pr:opened") (.jnum 7) (.ok none) (.ok none)
      (mkAuthorSRE "a@x.com" okCfg) (some 1)
      (fun _ => ⟨.ok none, .ok none, mkAuthorSRE "a@x.com" okCfg, some 1⟩)
      "TEST" "demo" "abc123" (by decide) rfl).2.2.2.2.2.2.2.1⟩

theorem log_review_failure_fetches (lk : Bool) (ev : FailureEvent) :
    (log_review_failure lk ev).1.fetches = [] := by cases lk <;> rfl

theorem save_review_to_database_fetches (sv : Option Nat) (rec0 : ReviewRecord) :
    (save_review_to_database sv rec0).1.fetches = [] := by cases sv <;> rfl

theorem prIssuesTail_fetches (beh : PRBehavior) (im : Bool) (pk rs pid : JValue)
    (d r : String) : (prIssuesTail beh im pk rs pid d r).fetches = [] := by
  simp [prIssuesTail, Trace.fetches_append, save_review_to_database_fetches]

/-- C6.  For every valid pull-request payload — source (`fromRef`) side
arbitrary, target side carrying the repository coordinate — and every
behaviour of the external calls, the one diff fetch the unit performs is
`get_pull_request_diff` applied to exactly the (project key, slug, PR id)
triple read from the target (`toRef`) reference; the source reference is
never consulted. -/
theorem C6_target_ref_fetch (beh : PRBehavior) (project slug : String) (prid : Int)
    (fromRef : JValue) (isManual : Bool) :
    (process_pull_request_review beh (mkPRPayload fromRef project slug prid)
      isManual).fetches = [.prDiff (.jstr project) (.jstr slug) (.jnum prid)] := by
  obtain ⟨d, rv, sre, sv, lk⟩ := beh
  rcases d with e | _ | s
  · simp [process_pull_request_review, mkPRPayload, jLookup, jGetItem, jGetAttrGet,
      JValue.truthy, log_review_failure_fetches, Trace.fetches_append]
  · simp [process_pull_request_review, mkPRPayload, jLookup, jGetItem, jGetAttrGet,
      JValue.truthy]
  · by_cases hs : pyStrip s = ""
    · simp [process_pull_request_review, mkPRPayload, jLookup, jGetItem, jGetAttrGet,
        JValue.truthy, hs]
    · rcases rv with e2 | orv
      · simp [process_pull_request_review, mkPRPayload, jLookup, jGetItem, jGetAttrGet,
          JValue.truthy, hs, log_review_failure_fetches, Trace.fetches_append]
      · by_cases ha : (match orv with | some r => r != "" | none => false) = true ∧
            ¬ pyStrip (orv.getD "") = "No issues found." <;>
          simp [process_pull_request_review, mkPRPayload, jLookup, jGetItem, jGetAttrGet,
            JValue.truthy, hs, ha, Trace.fetches_append, prIssuesTail_fetches]

theorem processChanges_eq_segTraces (logOk : Bool) (steps : Nat → CommitStepBehavior)
    (et : String) (ek : Option JValue) (pk rs : JValue) (im : Bool) (hs0 : List String) :
    ∀ (_ : ∀ h ∈ hs0, h ≠ "") (i : Nat) (c : Option JValue) (an ae : Option String),
      processChanges logOk steps et ek pk rs im (hs0.map mkChange) i c an ae =
      segTraces logOk steps et ek pk rs im hs0 i := by
  induction hs0 with
  | nil => intro _ i c an ae; rfl
  | cons h rest ih =>
    intro hall i c an ae
    have hh : h ≠ "" := hall h (by simp)
    have hall2 : ∀ x ∈ rest, x ≠ "" := fun x hx => hall x (by simp [hx])
    simp only [List.map_cons, processChanges, segTraces, mkChange, jLookup, List.find?,
      optTruthy, JValue.truthy]
    simp [hh, ih hall2]

theorem commitIssuesTail_failures (step : CommitStepBehavior) (im : Bool)
    (pk rs cid : JValue) (d r : String) :
    (commitIssuesTail step im pk rs cid d r).1.failures = [] := by
  rcases hsv : step.saveResult with _ | i <;>
    simp [commitIssuesTail, save_review_to_database, hsv, Trace.failures_append]

/-- C7.  For a commit-batch payload with N commits: (1) the whole run is
the concatenation of per-commit trace segments, where each segment is
computed from that commit's own external-call behaviour alone — so a
failure while processing commit k (a raising diff fetch, a raising LLM
call, or any other per-commit stage) cannot affect the segments of
commits k+1..N, which are processed exactly as they would be in any
other batch; and (2) every per-commit segment records at most one
FailureEvent, and any FailureEvent it records carries that commit's own
hash. -/
theorem C7_batch_isolation (project slug : String) (steps : Nat → CommitStepBehavior)
    (hs0 : List String) (logOk : Bool) (hall : ∀ h ∈ hs0, h ≠ "") :
    process_commit_review ⟨steps, logOk⟩ (mkCommitPayload project slug (hs0.map mkChange))
      false =
      segTraces logOk steps "webhook" (some (.jstr "repo:refs_changed"))
        (.jstr project) (.jstr slug) false hs0 0 ∧
    ∀ (step : CommitStepBehavior) (cid : JValue),
      (processOneCommit logOk step "webhook" (some (.jstr "repo:refs_changed"))
        (.jstr project) (.jstr slug) false cid).1.failures.length ≤ 1 ∧
      ∀ f ∈ (processOneCommit logOk step "webhook" (some (.jstr "repo:refs_changed"))
        (.jstr project) (.jstr slug) false cid).1.failures, f.commitId = some cid := by
  constructor
  · rcases hs0 with _ | ⟨h, rest⟩
    · rfl
    · have hseg := processChanges_eq_segTraces logOk steps "webhook"
        (some (.jstr "repo:refs_changed")) (.jstr project) (.jstr slug) false
        (h :: rest) hall 0 none none none
      simp only [List.map_cons] at hseg
      simp only [segTraces] at hseg ⊢
      simp [process_commit_review, mkCommitPayload, jLookup, jGetItem, JValue.truthy, hseg]
  · intro step cid
    obtain ⟨d, rv, sre, sv⟩ := step
    rcases d with e | _ | s
    · cases logOk <;>
        simp [processOneCommit, log_review_failure, baseFail, Trace.failures_append]
    · simp [processOneCommit]
    · by_cases hstrip : pyStrip s = ""
      · simp [processOneCommit, hstrip]
      · rcases rv with e2 | orv
        · cases logOk <;>
            simp [processOneCommit, hstrip, log_review_failure, baseFail,
              Trace.failures_append]
        · by_cases ha : (match orv with | some r => r != "" | none => false) = true ∧
              ¬ pyStrip (orv.getD "") = "No issues found." <;>
            simp [processOneCommit, hstrip, ha, Trace.failures_append,
              commitIssuesTail_failures]

/-- C7, witness: a concrete two-commit batch whose first commit's diff
fetch raises, evaluated through the theorem (the hash-nonemptiness
hypothesis discharged by computation). -/
theorem C7_batch_isolation_witness :
    (∀ h ∈ ["a1", "b2"], h ≠ "") ∧
    (process_commit_review
      ⟨fun i => if i = 0
          then ⟨.error ⟨"ConnectionError", "bitbucket down"⟩, .ok none,
            mkAuthorSRE "a@x.com" okCfg, some 1⟩
          else ⟨.ok none, .ok none, mkAuthorSRE "a@x.com" okCfg, some 1⟩, true⟩
      (mkCommitPayload "TEST" "demo" (["a1", "b2"].map mkChange)) false =
      segTraces true
        (fun i => if i = 0
          then ⟨.error ⟨"ConnectionError", "bitbucket down"⟩, .ok none,
            mkAuthorSRE "a@x.com" okCfg, some 1⟩
          else ⟨.ok none, .ok none, mkAuthorSRE "a@x.com" okCfg, some 1⟩)
        "webhook" (some (.jstr "repo:refs_changed")) (.jstr "TEST") (.jstr "demo") false
        ["a1", "b2"] 0 ∧
    ∀ (step : CommitStepBehavior) (cid : JValue),
      (processOneCommit true step "webhook" (some (.jstr "repo:refs_changed"))
        (.jstr "TEST") (.jstr "demo") false cid).1.failures.length ≤ 1 ∧
      ∀ f ∈ (processOneCommit true step "webhook" (some (.jstr "repo:refs_changed"))
        (.jstr "TEST") (.jstr "demo") false cid).1.failures, f.commitId = some cid) :=
  ⟨by decide,
   C7_batch_isolation "TEST" "demo"
    (fun i => if i = 0
      then ⟨.error ⟨"ConnectionError", "bitbucket down"⟩, .ok none,
        mkAuthorSRE "a@x.com" okCfg, some 1⟩
      else ⟨.ok none, .ok none, mkAuthorSRE "a@x.com" okCfg, some 1⟩)
    ["a1", "b2"] true (by decide)⟩

theorem review_diff_file_ok (filename fileText pk rs an r : String) (ae desc : Option String)
    (sv : Option Nat) (hext : pyEndswith filename ".diff" = true)
    (hsize : fileText.utf8ByteSize ≤ 10 * 1024 * 1024)
    (hne : pyStrip fileText ≠ "") (hr : r ≠ "") :
    (review_diff_file ⟨.ok (some r), sv, true⟩ filename fileText pk rs an ae desc).1 =
      .ok { status := "success", reviewMarkdown := r, recordId := sv,
            linesTotal := (pySplitlines fileText).length,
            linesAdded := ((pySplitlines fileText).filter isAddedLine).length,
            linesRemoved := ((pySplitlines fileText).filter isRemovedLine).length } := by
  have hsz : ¬ (fileText.utf8ByteSize > 10 * 1024 * 1024) := not_lt.mpr hsize
  rcases sv with _ | i <;>
    simp [review_diff_file, save_review_to_database, strTruthy, hext, hsz, hne, hr]

/-- C8.  When the LLM call of a valid diff upload succeeds but the
persistence write fails (the database behaviour returns no id), the
handler still returns a success response carrying the computed review
text and a null record identifier — no error is surfaced to the caller —
and nothing is persisted. -/
theorem C8_upload_persistence_best_effort (filename fileText pk rs an r : String)
    (ae desc : Option String) (hext : pyEndswith filename ".diff" = true)
    (hsize : fileText.utf8ByteSize ≤ 10 * 1024 * 1024)
    (hne : pyStrip fileText ≠ "") (hr : r ≠ "") :
    (review_diff_file ⟨.ok (some r), none, true⟩ filename fileText pk rs an ae desc).1 =
      .ok { status := "success", reviewMarkdown := r, recordId := none,
            linesTotal := (pySplitlines fileText).length,
            linesAdded := ((pySplitlines fileText).filter isAddedLine).length,
            linesRemoved := ((pySplitlines fileText).filter isRemovedLine).length } ∧
    (review_diff_file ⟨.ok (some r), none, true⟩ filename fileText pk rs an ae
      desc).2.reviews = [] := by
  have hsz : ¬ (fileText.utf8ByteSize > 10 * 1024 * 1024) := not_lt.mpr hsize
  exact ⟨review_diff_file_ok filename fileText pk rs an r ae desc none hext hsize hne hr,
    by simp [review_diff_file, save_review_to_database, strTruthy, hext, hsz, hne, hr]⟩

/-- C8, witness: the best-effort persistence behaviour evaluated at a
concrete upload whose database write fails. -/
theorem C8_upload_persistence_best_effort_witness :
    (review_diff_file ⟨.ok (some "Fix."), none, true⟩ "a.diff" "+x\n-y" "MANUAL"
      "diff-upload" "Anonymous" none none).1 =
      .ok { status := "success", reviewMarkdown := "Fix.", recordId := none,
            linesTotal := 2, linesAdded := 1, linesRemoved := 1 } :=
  (C8_upload_persistence_best_effort "a.diff" "+x\n-y" "MANUAL" "diff-upload" "Anonymous"
    "Fix." none none (by decide) (by decide) (by decide) (by decide)).1

/-- C9.  For every valid diff upload, the returned line statistics
satisfy the spec's counting rule: `lines_added` is the number of lines
of the uploaded text starting with `+` but not `+++`, `lines_removed`
the number starting with `-` but not `---`, and `lines_total` the total
number of lines. -/
theorem C9_upload_line_stats (filename fileText pk rs an r : String)
    (ae desc : Option String) (sv : Option Nat)
    (hext : pyEndswith filename ".diff" = true)
    (hsize : fileText.utf8ByteSize ≤ 10 * 1024 * 1024)
    (hne : pyStrip fileText ≠ "") (hr : r ≠ "") :
    ∃ resp, (review_diff_file ⟨.ok (some r), sv, true⟩ filename fileText pk rs an ae
        desc).1 = .ok resp ∧
      resp.linesAdded = (pySplitlines fileText).countP isAddedLine ∧
      resp.linesRemoved = (pySplitlines fileText).countP isRemovedLine ∧
      resp.linesTotal = (pySplitlines fileText).length :=
  ⟨_, review_diff_file_ok filename fileText pk rs an r ae desc sv hext hsize hne hr,
    (List.countP_eq_length_filter _ _).symm, (List.countP_eq_length_filter _ _).symm, rfl⟩

/-- C9, witness: the line statistics evaluated at a concrete upload. -/
theorem C9_upload_line_stats_witness :
    ∃ resp, (review_diff_file ⟨.ok (some "Fix."), some 1, true⟩ "a.diff"
        "+a\n-b\n+++ h\n--- h\nplain\n" "MANUAL" "diff-upload" "Anonymous" none none).1 =
        .ok resp ∧
      resp.linesAdded = (pySplitlines "+a\n-b\n+++ h\n--- h\nplain\n").countP isAddedLine ∧
      resp.linesRemoved = (pySplitlines "+a\n-b\n+++ h\n--- h\nplain\n").countP isRemovedLine ∧
      resp.linesTotal = (pySplitlines "+a\n-b\n+++ h\n--- h\nplain\n").length :=
  C9_upload_line_stats "a.diff" "+a\n-b\n+++ h\n--- h\nplain\n" "MANUAL" "diff-upload"
    "Anonymous" "Fix." none none (some 1) (by decide) (by decide) (by decide) (by decide)

/-- C10.  On the synchronous manual-review endpoint, a non-empty diff
whose generated review is null, or equals the no-issues literal after
trimming, falls through the actionable-branch without assigning
`record_id`; the final `return` then raises `UnboundLocalError`, the
outermost handler records a FailureEvent with
`failure_stage = "unknown"`, and the caller receives a 500 error instead
of a clean empty-success result.  Both concrete runs below (review =
`"No issues found."` and review = null) exhibit this. -/
theorem C10_record_id_unbound_local :
    ((manual_review ⟨.ok (), .ok (some "+x"), .ok (some "No issues found."),
        mkAuthorSRE "a@x.com" okCfg, some 1, true⟩ "TEST" "demo" (some 7) none).1 =
      .error ⟨500, "local variable record_id referenced before assignment"⟩ ∧
     (manual_review ⟨.ok (), .ok (some "+x"), .ok (some "No issues found."),
        mkAuthorSRE "a@x.com" okCfg, some 1, true⟩ "TEST" "demo" (some 7)
        none).2.failures.map (fun f => (f.stage, f.errorName)) =
       [("unknown", "UnboundLocalError")] ∧
     (manual_review ⟨.ok (), .ok (some "+x"), .ok (some "No issues found."),
        mkAuthorSRE "a@x.com" okCfg, some 1, true⟩ "TEST" "demo" (some 7)
        none).2.reviews = [] ∧
     (manual_review ⟨.ok (), .ok (some "+x"), .ok (some "No issues found."),
        mkAuthorSRE "a@x.com" okCfg, some 1, true⟩ "TEST" "demo" (some 7)
        none).2.emails = []) ∧
    ((manual_review ⟨.ok (), .ok (some "+x"), .ok none,
        mkAuthorSRE "a@x.com" okCfg, some 1, true⟩ "TEST" "demo" none (some "abc")).1 =
      .error ⟨500, "local variable record_id referenced before assignment"⟩ ∧
     (manual_review ⟨.ok (), .ok (some "+x"), .ok none,
        mkAuthorSRE "a@x.com" okCfg, some 1, true⟩ "TEST" "demo" none
        (some "abc")).2.failures.map (fun f => (f.stage, f.errorName)) =
       [("unknown", "UnboundLocalError")]) :=
  ⟨⟨rfl, rfl, rfl, rfl⟩, rfl, rfl⟩

end AICR
